import Mathlib

/-!
Verification development for the Delta-Inference & Causal Attribution Engine
(`backend/python-gnn/simulation_engine.py` and `backend/python-gnn/causal_attribution.py`).

The Python float arithmetic is modelled over `ℝ`.  Node feature matrices are
lists of rows, edge lists are lists of `(source, target)` pairs, and the
predictor is an abstract function from a graph snapshot to an `[N, D]`
probability matrix (the Predictor Port of the spec).  Human-readable
explanation strings are modelled without the embedded numeric formatting
(`f"...Δ{delta:+.2f}"`), which carries no semantic content; every other field
is translated directly from the source.
-/

/-- Failure mode enumeration from `simulation_engine.py` (`class FailureMode(IntEnum)`). -/
inductive FailureMode where
  | NONE
  | DEMAND_LOSS
  | SUPPLY_CUT
  | CONTAMINATION
  | CONTROL_FAILURE
deriving DecidableEq, Repr

/-- The `.name` attribute of the Python `IntEnum` member. -/
def FailureMode.name : FailureMode → String
  | .NONE => "NONE"
  | .DEMAND_LOSS => "DEMAND_LOSS"
  | .SUPPLY_CUT => "SUPPLY_CUT"
  | .CONTAMINATION => "CONTAMINATION"
  | .CONTROL_FAILURE => "CONTROL_FAILURE"

/-- `@dataclass SemanticInterpretation` from `simulation_engine.py`. -/
structure SemanticInterpretation where
  delta : ℝ
  failure_mode : FailureMode
  risk_type : String
  explanation : String
  risk_level : String
  ui_color : String
  ui_icon : String
  confidence : ℝ
  confidence_label : String
  pessimistic_delta : ℝ
  alert_level : String

/-- `SimulationEngine._compute_confidence`: scaled delta times topology weight,
clamped to `[0, 1]`, with a three-way label. -/
noncomputable def compute_confidence (delta topology_weight : ℝ) : ℝ × String :=
  let scaled_delta := min (|delta| * 2) 1
  let confidence := scaled_delta * topology_weight
  let confidence := max 0 (min 1 confidence)
  let label := if confidence < 0.2 then "low" else if confidence < 0.5 then "medium" else "high"
  (confidence, label)

/-- `SimulationEngine._calculate_pessimistic_delta`: failure-biased amplification.
Python's `raw_delta ** 0.5` on a positive float is modelled as `Real.sqrt`. -/
noncomputable def calculate_pessimistic_delta (raw_delta topology_weight : ℝ) : ℝ × String :=
  if raw_delta > 0 then
    let amplified := Real.sqrt raw_delta * 2
    let pessimistic := amplified * topology_weight
    let alert_level :=
      if pessimistic ≥ 0.8 then "critical"
      else if pessimistic ≥ 0.5 then "high"
      else if pessimistic ≥ 0.2 then "elevated"
      else "normal"
    (min pessimistic 1, alert_level)
  else
    (raw_delta * 0.1, "normal")

/-- `np.max` over a nonempty array; `0` is returned for the empty list (the Python
code only applies it to nonempty arrays). -/
def maxOf : List ℝ → ℝ
  | [] => 0
  | a :: as => as.foldl max a

/-- Pair each edge with its weight; a missing weight defaults to `1.0`, matching
`w = edge_weight[i] if i < len(edge_weight) else 1.0` in `_compute_topology_weights`. -/
def attachW : List (ℕ × ℕ) → List ℝ → List ((ℕ × ℕ) × ℝ)
  | [], _ => []
  | e :: es, [] => (e, 1) :: attachW es []
  | e :: es, w :: ws => (e, w) :: attachW es ws

/-- Node degree accumulated over the weighted edge list: each edge contributes to
both its source and its target (`degree[src] += 1; degree[dst] += 1`). -/
def nodeDegree (ews : List ((ℕ × ℕ) × ℝ)) (i : ℕ) : ℕ :=
  (ews.map fun ew => (if ew.1.1 = i then 1 else 0) + (if ew.1.2 = i then 1 else 0)).sum

/-- Incident weight sum (`weight_sum[src] += w; weight_sum[dst] += w`). -/
noncomputable def nodeWeightSum (ews : List ((ℕ × ℕ) × ℝ)) (i : ℕ) : ℝ :=
  (ews.map fun ew => (if ew.1.1 = i then ew.2 else 0) + (if ew.1.2 = i then ew.2 else 0)).sum

/-- Raw topology value `degree * avg_weight`, where the average incident edge
weight is `weight_sum / degree` guarded to `0` for zero-degree nodes
(`np.divide(..., where=degree > 0)`). -/
noncomputable def rawTopologyWeight (ews : List ((ℕ × ℕ) × ℝ)) (i : ℕ) : ℝ :=
  let d := nodeDegree ews i
  let avg := if 0 < d then nodeWeightSum ews i / (d : ℝ) else 0
  (d : ℝ) * avg

/-- `SimulationEngine._compute_topology_weights`: raw values normalized by their
maximum, or the neutral `0.5` fallback when the maximum is not positive. -/
noncomputable def compute_topology_weights (edge_index : List (ℕ × ℕ)) (edge_weight : List ℝ)
    (num_nodes : ℕ) : List ℝ :=
  let ews := attachW edge_index edge_weight
  let raw_weights := (List.range num_nodes).map (rawTopologyWeight ews)
  if maxOf raw_weights > 0 then
    raw_weights.map fun r => r / maxOf raw_weights
  else
    raw_weights.map fun _ => 0.5

/-- `SimulationEngine._interpret_demand_loss`. -/
noncomputable def interpret_demand_loss (delta : ℝ) (node_name risk_level ui_color : String)
    (confidence : ℝ) (confidence_label : String) (pessimistic_delta : ℝ) (alert_level : String) :
    SemanticInterpretation :=
  if delta < 0 then
    { delta := delta, failure_mode := .DEMAND_LOSS, risk_type := "STAGNATION_RISK",
      explanation := node_name ++ ": Reduced load, water stagnation risk",
      risk_level := risk_level, ui_color := ui_color, ui_icon := "🔄",
      confidence := confidence, confidence_label := confidence_label,
      pessimistic_delta := pessimistic_delta, alert_level := alert_level }
  else
    { delta := delta, failure_mode := .DEMAND_LOSS, risk_type := "LOAD_REDISTRIBUTION",
      explanation := node_name ++ ": Compensating for lost demand",
      risk_level := risk_level, ui_color := ui_color, ui_icon := "📈",
      confidence := confidence, confidence_label := confidence_label,
      pessimistic_delta := pessimistic_delta, alert_level := alert_level }

/-- `SimulationEngine._interpret_supply_cut`. -/
noncomputable def interpret_supply_cut (delta : ℝ) (node_name risk_level ui_color : String)
    (confidence : ℝ) (confidence_label : String) (pessimistic_delta : ℝ) (alert_level : String) :
    SemanticInterpretation :=
  if delta < 0 then
    { delta := delta, failure_mode := .SUPPLY_CUT, risk_type := "SUPPLY_ISOLATION",
      explanation := node_name ++ ": Cut off from supply source",
      risk_level := risk_level, ui_color := ui_color, ui_icon := "🚫",
      confidence := confidence, confidence_label := confidence_label,
      pessimistic_delta := pessimistic_delta, alert_level := alert_level }
  else
    { delta := delta, failure_mode := .SUPPLY_CUT, risk_type := "PRESSURE_SURGE",
      explanation := node_name ++ ": Pressure redistribution detected",
      risk_level := risk_level, ui_color := ui_color, ui_icon := "⚡",
      confidence := confidence, confidence_label := confidence_label,
      pessimistic_delta := pessimistic_delta, alert_level := alert_level }

/-- `SimulationEngine._interpret_contamination`. -/
noncomputable def interpret_contamination (delta : ℝ) (node_name risk_level ui_color : String)
    (confidence : ℝ) (confidence_label : String) (pessimistic_delta : ℝ) (alert_level : String) :
    SemanticInterpretation :=
  if delta < 0 then
    { delta := delta, failure_mode := .CONTAMINATION, risk_type := "BACKFLOW_RISK",
      explanation := node_name ++ ": Reduced pressure, backflow contamination risk",
      risk_level := risk_level, ui_color := ui_color, ui_icon := "☣️",
      confidence := confidence, confidence_label := confidence_label,
      pessimistic_delta := pessimistic_delta, alert_level := alert_level }
  else
    { delta := delta, failure_mode := .CONTAMINATION, risk_type := "CONTAMINATION_SPREAD",
      explanation := node_name ++ ": In contamination spread path",
      risk_level := risk_level, ui_color := ui_color, ui_icon := "🦠",
      confidence := confidence, confidence_label := confidence_label,
      pessimistic_delta := pessimistic_delta, alert_level := alert_level }

/-- `SimulationEngine._interpret_control_failure`. -/
noncomputable def interpret_control_failure (delta : ℝ) (node_name risk_level ui_color : String)
    (confidence : ℝ) (confidence_label : String) (pessimistic_delta : ℝ) (alert_level : String) :
    SemanticInterpretation :=
  if delta < 0 then
    { delta := delta, failure_mode := .CONTROL_FAILURE, risk_type := "CONTROL_BLIND_SPOT",
      explanation := node_name ++ ": Lost monitoring/control visibility",
      risk_level := risk_level, ui_color := ui_color, ui_icon := "👁️",
      confidence := confidence, confidence_label := confidence_label,
      pessimistic_delta := pessimistic_delta, alert_level := alert_level }
  else
    { delta := delta, failure_mode := .CONTROL_FAILURE, risk_type := "CONTROL_INSTABILITY",
      explanation := node_name ++ ": Control loop instability detected",
      risk_level := risk_level, ui_color := ui_color, ui_icon := "⚠️",
      confidence := confidence, confidence_label := confidence_label,
      pessimistic_delta := pessimistic_delta, alert_level := alert_level }

/-- `SimulationEngine._interpret_raw_delta`. -/
noncomputable def interpret_raw_delta (delta : ℝ) (node_name risk_level ui_color : String)
    (confidence : ℝ) (confidence_label : String) (pessimistic_delta : ℝ) (alert_level : String) :
    SemanticInterpretation :=
  if delta < 0 then
    { delta := delta, failure_mode := .NONE, risk_type := "IMPACT_DECREASE",
      explanation := node_name ++ ": Impact probability decreased",
      risk_level := risk_level, ui_color := ui_color, ui_icon := "📉",
      confidence := confidence, confidence_label := confidence_label,
      pessimistic_delta := pessimistic_delta, alert_level := alert_level }
  else
    { delta := delta, failure_mode := .NONE, risk_type := "IMPACT_INCREASE",
      explanation := node_name ++ ": Impact probability increased",
      risk_level := risk_level, ui_color := ui_color, ui_icon := "📈",
      confidence := confidence, confidence_label := confidence_label,
      pessimistic_delta := pessimistic_delta, alert_level := alert_level }

/-- `SimulationEngine._interpret_delta`: confidence and pessimistic values are
computed unconditionally, a magnitude-based risk tier is derived (overridden by a
non-normal alert level in pessimistic mode), and then the forced-failure-source
sentinel, the `UNAFFECTED` branch, or the failure-mode branch is selected. -/
noncomputable def interpret_delta (delta : ℝ) (node_name : String) (is_source : Bool)
    (failure_mode : FailureMode) (topology_weight : ℝ) (pessimistic_mode : Bool) :
    SemanticInterpretation :=
  let abs_delta := |delta|
  let cc := compute_confidence delta topology_weight
  let pd := calculate_pessimistic_delta delta topology_weight
  let effective_delta := if pessimistic_mode ∧ delta > 0 then pd.1 else abs_delta
  let base_risk : String × String :=
    if effective_delta < 0.05 then ("low", "#4CAF50")
    else if effective_delta < 0.15 then ("medium", "#FF9800")
    else if effective_delta < 0.30 then ("high", "#F44336")
    else ("critical", "#9C27B0")
  let risk : String × String :=
    if pessimistic_mode ∧ pd.2 ≠ "normal" then
      (pd.2,
        if pd.2 = "critical" then "#9C27B0"
        else if pd.2 = "high" then "#F44336"
        else if pd.2 = "elevated" then "#FF9800"
        else base_risk.2)
    else base_risk
  if is_source then
    { delta := delta, failure_mode := failure_mode, risk_type := "FAILURE_SOURCE",
      explanation := node_name ++ " is the simulated failure point",
      risk_level := "critical", ui_color := "#000000", ui_icon := "⚫",
      confidence := 1, confidence_label := "high",
      pessimistic_delta := 1, alert_level := "critical" }
  else if abs_delta < 0.01 then
    { delta := delta, failure_mode := failure_mode, risk_type := "UNAFFECTED",
      explanation := node_name ++ " is not significantly affected",
      risk_level := "low", ui_color := "#9E9E9E", ui_icon := "○",
      confidence := cc.1, confidence_label := cc.2,
      pessimistic_delta := pd.1, alert_level := pd.2 }
  else
    match failure_mode with
    | .DEMAND_LOSS => interpret_demand_loss delta node_name risk.1 risk.2 cc.1 cc.2 pd.1 pd.2
    | .SUPPLY_CUT => interpret_supply_cut delta node_name risk.1 risk.2 cc.1 cc.2 pd.1 pd.2
    | .CONTAMINATION => interpret_contamination delta node_name risk.1 risk.2 cc.1 cc.2 pd.1 pd.2
    | .CONTROL_FAILURE =>
        interpret_control_failure delta node_name risk.1 risk.2 cc.1 cc.2 pd.1 pd.2
    | .NONE => interpret_raw_delta delta node_name risk.1 risk.2 cc.1 cc.2 pd.1 pd.2

/-- The Predictor Port: a black-box function from a graph snapshot
(node features, edge index, edge weights) to an `[N, D]` probability matrix. -/
abbrev Predictor := List (List ℝ) → List (ℕ × ℕ) → List ℝ → List (List ℝ)

/-- One per-node record of the simulation report (`report.append({...})`). -/
structure NodeEntry where
  node_id : ℕ
  node_name : String
  baseline : ℝ
  simulated : ℝ
  delta : ℝ
  pessimistic_delta : Option ℝ
  is_failed_source : Bool
  interpretation : SemanticInterpretation

/-- The `summary` dictionary of the simulation report.  The natural-language
`interpretation_summary` string is presentation-only and not modelled. -/
structure SimSummary where
  total_nodes : ℕ
  failed_nodes : List ℕ
  failed_names : List String
  failure_mode : String
  pessimistic_mode : Bool
  affected_count : ℕ
  max_delta : ℝ
  mean_delta : ℝ
  max_pessimistic_delta : Option ℝ

/-- The `raw` sub-dictionary of the simulation report. -/
structure RawData where
  baseline : List ℝ
  simulated : List ℝ
  deltas : List ℝ

/-- The full return value of `SimulationEngine.run_simulation`. -/
structure SimReport where
  summary : SimSummary
  nodes : List NodeEntry
  raw : RawData

/-- Failure conditions of the engine; a numpy out-of-bounds row write raises
`IndexError`. -/
inductive SimErr where
  | indexOutOfRange
deriving DecidableEq, Repr

/-- The counterfactual feature copy: `x_sim[node_idx, status_col] = 0.0` for each
forced-failure index, where `status_col = 12`.  A row index outside `[0, N)`
aborts with numpy's `IndexError` (modelled as `none`). -/
def setFailed (x : List (List ℝ)) : List ℕ → Option (List (List ℝ))
  | [] => some x
  | i :: rest =>
      if h : i < x.length then setFailed (x.set i ((x.get ⟨i, h⟩).set 12 0)) rest
      else none

/-- Column 0 of an `[N, D]` matrix (`probs[:, 0]`, the impact probability). -/
def impactColumn (probs : List (List ℝ)) : List ℝ :=
  probs.map fun row => row.getD 0 0

/-- Per-node deltas `sim_probs - baseline_probs`. -/
noncomputable def simDeltas (base sim : List ℝ) (num_nodes : ℕ) : List ℝ :=
  (List.range num_nodes).map fun i => sim.getD i 0 - base.getD i 0

/-- The default node names `[f"Node_{i}" for i in range(num_nodes)]`. -/
def defaultNames (num_nodes : ℕ) : List String :=
  (List.range num_nodes).map fun i => "Node_" ++ toString i

/-- Pessimistic deltas: filled from `calculate_pessimistic_delta` in pessimistic
mode, otherwise the `np.zeros(num_nodes)` array is left untouched. -/
noncomputable def pessDeltas (pessimistic_mode : Bool) (deltas tws : List ℝ) (num_nodes : ℕ) :
    List ℝ :=
  if pessimistic_mode then
    (List.range num_nodes).map fun i =>
      (calculate_pessimistic_delta (deltas.getD i 0) (tws.getD i 0)).1
  else List.replicate num_nodes 0

/-- Build the report entry of node `i` (the dictionary appended in Step 7). -/
noncomputable def mkNodeEntry (deltas base sim tws pdeltas : List ℝ) (names : List String)
    (failed_nodes : List ℕ) (failure_mode : FailureMode) (pessimistic_mode : Bool) (i : ℕ) :
    NodeEntry :=
  { node_id := i
    node_name := names.getD i ""
    baseline := base.getD i 0
    simulated := sim.getD i 0
    delta := deltas.getD i 0
    pessimistic_delta := if pessimistic_mode then some (pdeltas.getD i 0) else none
    is_failed_source := decide (i ∈ failed_nodes)
    interpretation :=
      interpret_delta (deltas.getD i 0) (names.getD i "") (decide (i ∈ failed_nodes))
        failure_mode (tws.getD i 0) pessimistic_mode }

/-- Sort order of the report: descending absolute delta
(`report.sort(key=lambda r: abs(r["delta"]), reverse=True)`, a stable sort). -/
def reportOrder (a b : NodeEntry) : Prop := |b.delta| ≤ |a.delta|

noncomputable instance : DecidableRel reportOrder := fun a b =>
  inferInstanceAs (Decidable (|b.delta| ≤ |a.delta|))

instance : IsTotal NodeEntry reportOrder := ⟨fun _ _ => le_total _ _⟩

instance : IsTrans NodeEntry reportOrder := ⟨fun _ _ _ hab hbc => le_trans hbc hab⟩

/-- Baseline (or counterfactual) per-node impact: column 0 of the predictor call
(`predict_with_threshold(...)[0][:, 0]`). -/
noncomputable def simBase (pred : Predictor) (x : List (List ℝ)) (edge_index : List (ℕ × ℕ))
    (edge_weight : List ℝ) : List ℝ :=
  impactColumn (pred x edge_index edge_weight)

/-- The delta array of a run, given the original and counterfactual features. -/
noncomputable def reportDeltas (pred : Predictor) (x x_sim : List (List ℝ))
    (edge_index : List (ℕ × ℕ)) (edge_weight : List ℝ) : List ℝ :=
  simDeltas (simBase pred x edge_index edge_weight) (simBase pred x_sim edge_index edge_weight)
    x.length

/-- The resolved node-name list of a run. -/
def reportNames (node_names : Option (List String)) (num_nodes : ℕ) : List String :=
  node_names.getD (defaultNames num_nodes)

/-- The pessimistic-delta array of a run. -/
noncomputable def reportPDeltas (pred : Predictor) (x x_sim : List (List ℝ))
    (edge_index : List (ℕ × ℕ)) (edge_weight : List ℝ) (pessimistic_mode : Bool) : List ℝ :=
  pessDeltas pessimistic_mode (reportDeltas pred x x_sim edge_index edge_weight)
    (compute_topology_weights edge_index edge_weight x.length) x.length

/-- The report entry of node `i` in a run. -/
noncomputable def reportEntry (pred : Predictor) (x x_sim : List (List ℝ))
    (edge_index : List (ℕ × ℕ)) (edge_weight : List ℝ) (failed_nodes : List ℕ)
    (node_names : Option (List String)) (failure_mode : FailureMode) (pessimistic_mode : Bool)
    (i : ℕ) : NodeEntry :=
  mkNodeEntry (reportDeltas pred x x_sim edge_index edge_weight)
    (simBase pred x edge_index edge_weight) (simBase pred x_sim edge_index edge_weight)
    (compute_topology_weights edge_index edge_weight x.length)
    (reportPDeltas pred x x_sim edge_index edge_weight pessimistic_mode)
    (reportNames node_names x.length) failed_nodes failure_mode pessimistic_mode i

/-- The sorted per-node entry list of a run (Step 7 followed by the sort). -/
noncomputable def reportNodes (pred : Predictor) (x x_sim : List (List ℝ))
    (edge_index : List (ℕ × ℕ)) (edge_weight : List ℝ) (failed_nodes : List ℕ)
    (node_names : Option (List String)) (failure_mode : FailureMode) (pessimistic_mode : Bool) :
    List NodeEntry :=
  List.insertionSort reportOrder
    ((List.range x.length).map
      (reportEntry pred x x_sim edge_index edge_weight failed_nodes node_names failure_mode
        pessimistic_mode))

/-- The full report of a successful run, given the counterfactual features
`x_sim` produced by `setFailed`. -/
noncomputable def buildReport (pred : Predictor) (x x_sim : List (List ℝ))
    (edge_index : List (ℕ × ℕ)) (edge_weight : List ℝ) (failed_nodes : List ℕ)
    (node_names : Option (List String)) (failure_mode : FailureMode) (pessimistic_mode : Bool) :
    SimReport :=
  { summary :=
      { total_nodes := x.length
        failed_nodes := failed_nodes
        failed_names := failed_nodes.map fun i => (reportNames node_names x.length).getD i ""
        failure_mode := failure_mode.name
        pessimistic_mode := pessimistic_mode
        affected_count :=
          ((reportNodes pred x x_sim edge_index edge_weight failed_nodes node_names
              failure_mode pessimistic_mode).filter fun r => decide (|r.delta| > 0.01)).length
        max_delta := maxOf ((reportDeltas pred x x_sim edge_index edge_weight).map abs)
        mean_delta := ((reportDeltas pred x x_sim edge_index edge_weight).map abs).sum
          / (x.length : ℝ)
        max_pessimistic_delta :=
          if pessimistic_mode then
            some (maxOf (reportPDeltas pred x x_sim edge_index edge_weight pessimistic_mode))
          else none }
    nodes := reportNodes pred x x_sim edge_index edge_weight failed_nodes node_names
      failure_mode pessimistic_mode
    raw :=
      { baseline := simBase pred x edge_index edge_weight
        simulated := simBase pred x_sim edge_index edge_weight
        deltas := reportDeltas pred x x_sim edge_index edge_weight } }

/-- `SimulationEngine.run_simulation`, with an explicit count of the predictor
invocations performed.  The baseline predictor call (Step 1) always happens
before the counterfactual feature copy (Step 2), so an out-of-range
forced-failure index aborts the run after one predictor call; a successful run
performs exactly two. -/
noncomputable def run_simulationE (pred : Predictor) (x : List (List ℝ))
    (edge_index : List (ℕ × ℕ)) (edge_weight : List ℝ) (failed_nodes : List ℕ)
    (node_names : Option (List String)) (failure_mode : FailureMode)
    (pessimistic_mode : Bool) : Except SimErr SimReport × ℕ :=
  match setFailed x failed_nodes with
  | none => (Except.error SimErr.indexOutOfRange, 1)
  | some x_sim =>
    (Except.ok
      (buildReport pred x x_sim edge_index edge_weight failed_nodes node_names failure_mode
        pessimistic_mode), 2)

/-- The twelve node-type names of `causal_attribution.py`. -/
def typeNames : List String :=
  ["Road", "Building", "Power", "Tank", "Pump", "Pipe",
   "Sensor", "Cluster", "Bridge", "School", "Hospital", "Market"]

/-- `np.argmax`: index of the first occurrence of the maximum. -/
noncomputable def argmaxIdx (l : List ℝ) : ℕ :=
  (List.range l.length).foldl (fun best i => if l.getD i 0 > l.getD best 0 then i else best) 0

/-- Node-type lookup `type_names[np.argmax(x[idx, :12])]`. -/
noncomputable def nodeTypeName (row : List ℝ) : String :=
  typeNames.getD (argmaxIdx (row.take 12)) ""

/-- Mean of a matrix row (`pred[target_node_idx].mean()`). -/
noncomputable def rowMean (row : List ℝ) : ℝ := row.sum / (row.length : ℝ)

/-- Perturbation of a neighbor in `node_perturbation_analysis`: status (15),
level (13), and flow (14) forced to `0.0`. -/
noncomputable def perturbFail (x : List (List ℝ)) (i : ℕ) : List (List ℝ) :=
  x.set i ((((x.getD i []).set 15 0).set 13 0).set 14 0)

/-- Repair of a failed node in `counterfactual_analysis`: status (15) to `0.9`,
level (13) to `0.8`, flow (14) to `0.7`. -/
noncomputable def repairNode (x : List (List ℝ)) (i : ℕ) : List (List ℝ) :=
  x.set i ((((x.getD i []).set 15 0.9).set 13 0.8).set 14 0.7)

/-- One record of `node_perturbation_analysis`'s result list. -/
structure PerturbResult where
  neighbor_idx : ℕ
  node_type : String
  baseline_impact : ℝ
  perturbed_impact : ℝ
  causal_effect : ℝ

/-- One record of `edge_occlusion_analysis`'s result list. -/
structure OccludeResult where
  edge_idx : ℕ
  source_idx : ℕ
  source_type : String
  edge_weight : ℝ
  baseline_impact : ℝ
  occluded_impact : ℝ
  causal_effect : ℝ

/-- The record returned by `counterfactual_analysis`. -/
structure RepairResult where
  current_impact : ℝ
  repaired_impact : ℝ
  benefit : ℝ

/-- Sort order of node-perturbation results: descending absolute causal effect
(`results.sort(key=lambda x: abs(x['causal_effect']), reverse=True)`). -/
def perturbOrder (a b : PerturbResult) : Prop := |b.causal_effect| ≤ |a.causal_effect|

noncomputable instance : DecidableRel perturbOrder := fun a b =>
  inferInstanceAs (Decidable (|b.causal_effect| ≤ |a.causal_effect|))

instance : IsTotal PerturbResult perturbOrder := ⟨fun _ _ => le_total _ _⟩

instance : IsTrans PerturbResult perturbOrder := ⟨fun _ _ _ hab hbc => le_trans hbc hab⟩

/-- Sort order of edge-occlusion results: ascending causal effect
(`results.sort(key=lambda x: x['causal_effect'])`). -/
def occludeOrder (a b : OccludeResult) : Prop := a.causal_effect ≤ b.causal_effect

noncomputable instance : DecidableRel occludeOrder := fun a b =>
  inferInstanceAs (Decidable (a.causal_effect ≤ b.causal_effect))

instance : IsTotal OccludeResult occludeOrder := ⟨fun _ _ => le_total _ _⟩

instance : IsTrans OccludeResult occludeOrder := ⟨fun _ _ _ hab hbc => le_trans hab hbc⟩

/-- `node_perturbation_analysis` from `causal_attribution.py`: for each distinct
upstream neighbor of the target, fail it and record the change of the target's
mean impact; the result list is sorted by descending absolute causal effect.
Python deduplicates via `list(set(neighbors))`, whose iteration order is
unspecified; deduplication order only feeds the stable sort, so `List.dedup`
stands in for it. -/
noncomputable def node_perturbation_results (pred : Predictor) (x : List (List ℝ))
    (edge_index : List (ℕ × ℕ)) (edge_attr : List ℝ) (target : ℕ) : List PerturbResult :=
  let baseline_impact := rowMean ((pred x edge_index edge_attr).getD target [])
  let neighbors := ((edge_index.filter fun e => e.2 = target).map fun e => e.1).dedup
  if neighbors.isEmpty then []
  else
    List.insertionSort perturbOrder
      (neighbors.map fun n =>
        let perturbed_impact := rowMean ((pred (perturbFail x n) edge_index edge_attr).getD target [])
        { neighbor_idx := n
          node_type := nodeTypeName (x.getD n [])
          baseline_impact := baseline_impact
          perturbed_impact := perturbed_impact
          causal_effect := perturbed_impact - baseline_impact })

/-- `edge_occlusion_analysis` from `causal_attribution.py`: for each incoming
edge of the target, delete that edge (and its weight) and record the change of
the target's mean impact; the result list is sorted by ascending causal effect. -/
noncomputable def edge_occlusion_results (pred : Predictor) (x : List (List ℝ))
    (edge_index : List (ℕ × ℕ)) (edge_attr : List ℝ) (target : ℕ) : List OccludeResult :=
  let baseline_impact := rowMean ((pred x edge_index edge_attr).getD target [])
  let incoming := (List.range edge_index.length).filter fun i =>
    (edge_index.getD i (0, 0)).2 = target
  if incoming.isEmpty then []
  else
    List.insertionSort occludeOrder
      (incoming.map fun i =>
        let occluded_impact := rowMean
          ((pred x (edge_index.eraseIdx i) (edge_attr.eraseIdx i)).getD target [])
        { edge_idx := i
          source_idx := (edge_index.getD i (0, 0)).1
          source_type := nodeTypeName (x.getD (edge_index.getD i (0, 0)).1 [])
          edge_weight := edge_attr.getD i 0
          baseline_impact := baseline_impact
          occluded_impact := occluded_impact
          causal_effect := occluded_impact - baseline_impact })

/-- `counterfactual_analysis` from `causal_attribution.py`. -/
noncomputable def counterfactual_analysis (pred : Predictor) (x : List (List ℝ))
    (edge_index : List (ℕ × ℕ)) (edge_attr : List ℝ) (target failed : ℕ) : RepairResult :=
  let current_impact := rowMean ((pred x edge_index edge_attr).getD target [])
  let repaired_impact := rowMean ((pred (repairNode x failed) edge_index edge_attr).getD target [])
  { current_impact := current_impact
    repaired_impact := repaired_impact
    benefit := current_impact - repaired_impact }

/-- Degree of a node as the spec words it: count of incident edges, in plus out. -/
def specDegree (edges : List (ℕ × ℕ)) (i : ℕ) : ℕ :=
  (edges.filter fun e => e.1 = i).length + (edges.filter fun e => e.2 = i).length

/-- Weight-sum of a node as the spec words it: sum of incident edge weights
(an edge incident on both ends contributes twice). -/
noncomputable def specWeightSum (edges : List (ℕ × ℕ)) (ws : List ℝ) (i : ℕ) : ℝ :=
  (((edges.zip ws).filter fun ew => ew.1.1 = i).map fun ew => ew.2).sum +
    (((edges.zip ws).filter fun ew => ew.1.2 = i).map fun ew => ew.2).sum

/-- Average incident edge weight as the spec words it: weight-sum over degree,
`0` for a zero-degree node. -/
noncomputable def specAvgWeight (edges : List (ℕ × ℕ)) (ws : List ℝ) (i : ℕ) : ℝ :=
  if specDegree edges i = 0 then 0 else specWeightSum edges ws i / (specDegree edges i : ℝ)

/-- Raw topology value as the spec words it: degree times average edge weight. -/
noncomputable def specRawValue (edges : List (ℕ × ℕ)) (ws : List ℝ) (i : ℕ) : ℝ :=
  (specDegree edges i : ℝ) * specAvgWeight edges ws i

/-- Topology Weight Calculator as the spec words it (spec section 4.1): raw
values divided by their maximum, or a neutral `0.5` for every node when the
maximum is `0`. -/
noncomputable def specTopologyWeights (edges : List (ℕ × ℕ)) (ws : List ℝ) (num_nodes : ℕ) :
    List ℝ :=
  if 0 < maxOf ((List.range num_nodes).map (specRawValue edges ws)) then
    ((List.range num_nodes).map (specRawValue edges ws)).map fun r =>
      r / maxOf ((List.range num_nodes).map (specRawValue edges ws))
  else
    ((List.range num_nodes).map (specRawValue edges ws)).map fun _ => 0.5

/-- A healthy 13-column feature row whose status column (12) reads `0.9`. -/
noncomputable def healthyRow : List ℝ := [0, 0, 0, 0, 0, 0, 0, 0, 0, 0, 0, 0, 0.9]

/-- The same row after the forced failure write `x_sim[i, 12] = 0.0`. -/
noncomputable def failedRow : List ℝ := [0, 0, 0, 0, 0, 0, 0, 0, 0, 0, 0, 0, 0]

/-- A two-node graph snapshot, both nodes healthy. -/
noncomputable def x10 : List (List ℝ) := [healthyRow, healthyRow]

/-- `x10` after forcing node 0 to fail. -/
noncomputable def xs10 : List (List ℝ) := [failedRow, healthyRow]

/-- One edge from node 0 to node 1. -/
def e10 : List (ℕ × ℕ) := [(0, 1)]

/-- Weight of the single edge. -/
noncomputable def w10 : List ℝ := [1]

/-- A concrete deterministic predictor: node 1's impact probability jumps from
`0` to `1` once node 0's status column is zeroed; node 0's impact stays `0`. -/
noncomputable def pred10 : Predictor := fun x _ _ =>
  if (x.getD 0 []).getD 12 1 = 0 then [[0], [1]] else [[0], [0]]

/-- A concrete deterministic predictor for the summary-statistics scenario: the
forced-failure source node 0 gets a large delta (`1/2`) and the downstream node
1 a sub-threshold delta (`1/200`). -/
noncomputable def pred2 : Predictor := fun x _ _ =>
  if (x.getD 0 []).getD 12 1 = 0 then [[1/2], [1/200]] else [[0], [0]]

/-- A 16-column feature row (columns 13, 14, 15 are level, flow, status). -/
noncomputable def row4 : List ℝ := [0, 0, 0, 0, 0, 0, 0, 0, 0, 0, 0, 0, 0.8, 0.8, 0.7, 0.9]

/-- Two-node snapshot for the causal-attribution runs. -/
noncomputable def x4 : List (List ℝ) := [row4, row4]

/-- A constant predictor whose per-node output vector is `[0, 1]`: dimension 0
is `0` while the row mean is `1/2`. -/
noncomputable def pred4 : Predictor := fun _ _ _ => [[0, 1], [0, 1]]

/-- One edge into target node 1 for the causal-attribution runs. -/
def e4 : List (ℕ × ℕ) := [(0, 1)]

/-- Weight of the causal-attribution edge. -/
noncomputable def w4 : List ℝ := [1]

/-- Folding `max` only grows the accumulator. -/
theorem le_foldl_max (l : List ℝ) : ∀ a b : ℝ, a ≤ b → a ≤ l.foldl max b := by
  induction l with
  | nil => exact fun a b h => h
  | cons c l ih =>
      intro a b h
      exact ih a (max b c) (le_trans h (le_max_left b c))

/-- Every member of the list is bounded by the fold of `max`. -/
theorem mem_le_foldl_max (l : List ℝ) : ∀ b a : ℝ, a ∈ l → a ≤ l.foldl max b := by
  induction l with
  | nil => intro b a h; cases h
  | cons c l ih =>
      intro b a h
      rcases List.mem_cons.mp h with rfl | h
      · exact le_foldl_max l a (max b a) (le_max_right b a)
      · exact ih (max b c) a h

/-- `np.max` bounds every member of the array. -/
theorem le_maxOf (l : List ℝ) (a : ℝ) (h : a ∈ l) : a ≤ maxOf l := by
  cases l with
  | nil => cases h
  | cons b l =>
      rcases List.mem_cons.mp h with rfl | h
      · exact le_foldl_max l a a le_rfl
      · exact mem_le_foldl_max l b a h

/-- The counterfactual copy aborts exactly when some forced index is
out of range. -/
theorem setFailed_eq_none (failed : List ℕ) (x : List (List ℝ))
    (h : ∃ i ∈ failed, x.length ≤ i) : setFailed x failed = none := by
  induction failed generalizing x with
  | nil => rcases h with ⟨i, hi, _⟩; cases hi
  | cons j rest ih =>
      rcases h with ⟨i, hi, hlen⟩
      rcases List.mem_cons.mp hi with rfl | hmem
      · have hnot : ¬ i < x.length := not_lt.mpr hlen
        simp only [setFailed, dif_neg hnot]
      · by_cases hj : j < x.length
        · simp only [setFailed, dif_pos hj]
          exact ih _ ⟨i, hmem, by simpa using hlen⟩
        · simp only [setFailed, dif_neg hj]

/-- Indexing into a mapped range. -/
theorem getD_map_range (f : ℕ → ℝ) (N i : ℕ) (h : i < N) (d : ℝ) :
    ((List.range N).map f).getD i d = f i := by
  rw [List.getD_eq_getElem?_getD, List.getElem?_map, List.getElem?_range h, Option.map_some']
  rfl

/-- With matching lengths the defaulting zip `attachW` is `List.zip`. -/
theorem attachW_eq_zip (es : List (ℕ × ℕ)) (ws : List ℝ) (h : ws.length = es.length) :
    attachW es ws = es.zip ws := by
  induction es generalizing ws with
  | nil => cases ws with
      | nil => rfl
      | cons w ws => cases h
  | cons e es ih =>
      cases ws with
      | nil => cases h
      | cons w ws =>
          simp only [attachW, List.zip_cons_cons, List.cons.injEq, true_and]
          exact ih ws (by simpa using h)

/-- The loop-accumulated degree equals the incidence-count reading. -/
theorem nodeDegree_eq_filter (ews : List ((ℕ × ℕ) × ℝ)) (i : ℕ) :
    nodeDegree ews i =
      (ews.filter fun ew => ew.1.1 = i).length + (ews.filter fun ew => ew.1.2 = i).length := by
  induction ews with
  | nil => rfl
  | cons ew ews ih =>
      simp only [nodeDegree, List.map_cons, List.sum_cons, List.filter_cons] at *
      split_ifs with h1 h2 h2 <;> simp_all <;> omega

/-- The loop-accumulated weight sum equals the incidence-sum reading. -/
theorem nodeWeightSum_eq_filter (ews : List ((ℕ × ℕ) × ℝ)) (i : ℕ) :
    nodeWeightSum ews i =
      ((ews.filter fun ew => ew.1.1 = i).map fun ew => ew.2).sum +
        ((ews.filter fun ew => ew.1.2 = i).map fun ew => ew.2).sum := by
  induction ews with
  | nil => simp [nodeWeightSum]
  | cons ew ews ih =>
      simp only [nodeWeightSum, List.map_cons, List.sum_cons, List.filter_cons] at *
      split_ifs with h1 h2 h2 <;> simp_all <;> ring

/-- Filtering a zip on a source-side predicate counts as many elements as
filtering the edge list itself. -/
theorem filter_zip_fst_length (p : ℕ × ℕ → Bool) (es : List (ℕ × ℕ)) (ws : List ℝ)
    (h : ws.length = es.length) :
    ((es.zip ws).filter fun ew => p ew.1).length = (es.filter p).length := by
  induction es generalizing ws with
  | nil => simp
  | cons e es ih =>
      cases ws with
      | nil => cases h
      | cons w ws =>
          simp only [List.zip_cons_cons, List.filter_cons]
          by_cases hp : p e = true
          · simp only [hp, if_pos, List.length_cons]
            rw [ih ws (by simpa using h)]
          · simp only [hp]
            exact ih ws (by simpa using h)

/-- Filtering a zip on a target-side predicate counts as many elements as
filtering the edge list itself. -/
theorem filter_zip_snd_length (p : ℕ × ℕ → Bool) (es : List (ℕ × ℕ)) (ws : List ℝ)
    (h : ws.length = es.length) :
    ((es.zip ws).filter fun ew => p ew.1).length = (es.filter p).length :=
  filter_zip_fst_length p es ws h

/-- On matching lengths, the loop-accumulated degree is the spec's degree. -/
theorem nodeDegree_eq_spec (es : List (ℕ × ℕ)) (ws : List ℝ) (i : ℕ)
    (h : ws.length = es.length) : nodeDegree (attachW es ws) i = specDegree es i := by
  rw [attachW_eq_zip es ws h, nodeDegree_eq_filter, specDegree,
    filter_zip_fst_length (fun e => decide (e.1 = i)) es ws h,
    filter_zip_fst_length (fun e => decide (e.2 = i)) es ws h]

/-- On matching lengths, the loop-accumulated weight sum is the spec's. -/
theorem nodeWeightSum_eq_spec (es : List (ℕ × ℕ)) (ws : List ℝ) (i : ℕ)
    (h : ws.length = es.length) : nodeWeightSum (attachW es ws) i = specWeightSum es ws i := by
  rw [attachW_eq_zip es ws h, nodeWeightSum_eq_filter, specWeightSum]

/-- On matching lengths, the code's raw topology value is the spec's. -/
theorem rawTopologyWeight_eq_spec (es : List (ℕ × ℕ)) (ws : List ℝ) (i : ℕ)
    (h : ws.length = es.length) :
    rawTopologyWeight (attachW es ws) i = specRawValue es ws i := by
  simp only [rawTopologyWeight, specRawValue, specAvgWeight]
  rw [nodeDegree_eq_spec es ws i h, nodeWeightSum_eq_spec es ws i h]
  rcases Nat.eq_zero_or_pos (specDegree es i) with hz | hp
  · simp [hz]
  · rw [if_pos hp, if_neg (Nat.pos_iff_ne_zero.mp hp)]

/-- On matching lengths, `_compute_topology_weights` computes exactly the
spec's Topology Weight Calculator. -/
theorem compute_topology_weights_eq_spec (es : List (ℕ × ℕ)) (ws : List ℝ) (N : ℕ)
    (h : ws.length = es.length) :
    compute_topology_weights es ws N = specTopologyWeights es ws N := by
  simp only [compute_topology_weights, specTopologyWeights]
  rw [List.map_congr_left fun i _ => rawTopologyWeight_eq_spec es ws i h]

/-- Every weight attached by `attachW` is nonnegative when the inputs are
(the default weight is `1`). -/
theorem attachW_nonneg (es : List (ℕ × ℕ)) (ws : List ℝ) (hw : ∀ w ∈ ws, 0 ≤ w) :
    ∀ ew ∈ attachW es ws, 0 ≤ ew.2 := by
  induction es generalizing ws with
  | nil => intro ew hew; cases hew
  | cons e es ih =>
      intro ew hew
      cases ws with
      | nil =>
          rcases List.mem_cons.mp hew with rfl | hmem
          · exact zero_le_one
          · exact ih [] (by intro w hw2; cases hw2) ew hmem
      | cons w ws =>
          rcases List.mem_cons.mp hew with rfl | hmem
          · exact hw w (List.mem_cons_self w ws)
          · exact ih ws (fun v hv => hw v (List.mem_cons_of_mem w hv)) ew hmem

/-- The incident weight sum is nonnegative for nonnegative weights. -/
theorem nodeWeightSum_nonneg (ews : List ((ℕ × ℕ) × ℝ)) (i : ℕ)
    (hw : ∀ ew ∈ ews, 0 ≤ ew.2) : 0 ≤ nodeWeightSum ews i := by
  refine List.sum_nonneg ?_
  intro a ha
  rcases List.mem_map.mp ha with ⟨ew, hew, rfl⟩
  have := hw ew hew
  positivity

/-- The raw topology value is nonnegative for nonnegative weights. -/
theorem rawTopologyWeight_nonneg (ews : List ((ℕ × ℕ) × ℝ)) (i : ℕ)
    (hw : ∀ ew ∈ ews, 0 ≤ ew.2) : 0 ≤ rawTopologyWeight ews i := by
  simp only [rawTopologyWeight]
  split_ifs with h
  · have h1 : (0 : ℝ) ≤ nodeDegree ews i := Nat.cast_nonneg _
    have h2 := nodeWeightSum_nonneg ews i hw
    positivity
  · simp

/-- Every output of `_compute_topology_weights` lies in `[0, 1]` for
nonnegative edge weights. -/
theorem compute_topology_weights_mem_Icc (es : List (ℕ × ℕ)) (ws : List ℝ) (N : ℕ)
    (hw : ∀ w ∈ ws, 0 ≤ w) :
    ∀ v ∈ compute_topology_weights es ws N, 0 ≤ v ∧ v ≤ 1 := by
  intro v hv
  simp only [compute_topology_weights] at hv
  have hnn : ∀ r ∈ (List.range N).map (rawTopologyWeight (attachW es ws)), 0 ≤ r := by
    intro r hr
    rcases List.mem_map.mp hr with ⟨i, _, rfl⟩
    exact rawTopologyWeight_nonneg _ i (attachW_nonneg es ws hw)
  split_ifs at hv with hpos
  · rcases List.mem_map.mp hv with ⟨r, hr, rfl⟩
    have hrle := le_maxOf _ r hr
    constructor
    · exact div_nonneg (hnn r hr) (le_of_lt hpos)
    · exact div_le_one_of_le₀ hrle (le_of_lt hpos)
  · rcases List.mem_map.mp hv with ⟨r, _, rfl⟩
    norm_num


set_option maxHeartbeats 1000000 in
/-- Every non-source branch of `_interpret_delta` carries through the
unconditionally computed pessimistic delta and alert level. -/
theorem interp_nonsource_fields (d : ℝ) (n : String) (fm : FailureMode) (tw : ℝ) (pm : Bool) :
    (interpret_delta d n false fm tw pm).pessimistic_delta =
        (calculate_pessimistic_delta d tw).1 ∧
      (interpret_delta d n false fm tw pm).alert_level =
        (calculate_pessimistic_delta d tw).2 := by
  cases fm <;>
    · rw [interpret_delta.eq_def]
      simp only [Bool.false_eq_true, if_false]
      split_ifs <;>
        simp [interpret_demand_loss, interpret_supply_cut, interpret_contamination,
          interpret_control_failure, interpret_raw_delta] <;>
        split_ifs <;> simp

/-- The source branch of `_interpret_delta` is the fixed sentinel. -/
theorem interp_source_fields (d : ℝ) (n : String) (fm : FailureMode) (tw : ℝ) (pm : Bool) :
    (interpret_delta d n true fm tw pm).risk_type = "FAILURE_SOURCE" ∧
      (interpret_delta d n true fm tw pm).risk_level = "critical" ∧
      (interpret_delta d n true fm tw pm).confidence = 1 ∧
      (interpret_delta d n true fm tw pm).pessimistic_delta = 1 ∧
      (interpret_delta d n true fm tw pm).alert_level = "critical" := by
  rw [interpret_delta.eq_def]
  simp

/-- The report's node list holds exactly the entries of the index range. -/
theorem mem_reportNodes_iff (pred : Predictor) (x x_sim : List (List ℝ))
    (e : List (ℕ × ℕ)) (w : List ℝ) (failed : List ℕ) (names : Option (List String))
    (fm : FailureMode) (pm : Bool) (r : NodeEntry) :
    r ∈ reportNodes pred x x_sim e w failed names fm pm ↔
      ∃ i < x.length, r = reportEntry pred x x_sim e w failed names fm pm i := by
  unfold reportNodes
  rw [List.mem_insertionSort]
  constructor
  · intro hr
    rcases List.mem_map.mp hr with ⟨i, hi, rfl⟩
    exact ⟨i, List.mem_range.mp hi, rfl⟩
  · rintro ⟨i, hi, rfl⟩
    exact List.mem_map.mpr ⟨i, List.mem_range.mpr hi, rfl⟩

/-- Filtering the sorted entry list on a delta predicate counts the same
elements as filtering the underlying value list. -/
theorem sorted_filter_delta_length (N : ℕ) (f : ℕ → NodeEntry) (g : ℕ → ℝ)
    (hfg : ∀ i < N, (f i).delta = g i) (p : ℝ → Bool) :
    ((List.insertionSort reportOrder ((List.range N).map f)).filter
        fun r => p r.delta).length
      = (((List.range N).map g).filter p).length := by
  rw [((List.perm_insertionSort reportOrder ((List.range N).map f)).filter _).length_eq]
  rw [List.filter_map, List.filter_map, List.length_map, List.length_map]
  refine congrArg List.length (List.filter_congr ?_)
  intro i hi
  simp only [Function.comp]
  rw [hfg i (List.mem_range.mp hi)]

/-- The delta recorded in the report entry of node `i` is the `i`-th delta. -/
theorem reportEntry_delta_eq (pred : Predictor) (x x_sim : List (List ℝ))
    (e : List (ℕ × ℕ)) (w : List ℝ) (failed : List ℕ) (names : Option (List String))
    (fm : FailureMode) (pm : Bool) (i : ℕ) (h : i < x.length) :
    (reportEntry pred x x_sim e w failed names fm pm i).delta =
      (simBase pred x_sim e w).getD i 0 - (simBase pred x e w).getD i 0 := by
  simp only [reportEntry, mkNodeEntry, reportDeltas, simDeltas]
  exact getD_map_range _ x.length i h 0

/-- The two-node snapshot has two rows. -/
theorem x10_length : x10.length = 2 := by simp [x10]

/-- Forcing node 0 of the two-node snapshot zeroes its status column. -/
theorem setFailed_x10_eval : setFailed x10 [0] = some xs10 := by
  norm_num [setFailed, x10, xs10, healthyRow, failedRow, List.set]

/-- Baseline impact column of the jump predictor on the healthy snapshot. -/
theorem base10_eval : simBase pred10 x10 e10 w10 = [0, 0] := by
  norm_num [simBase, impactColumn, pred10, x10, healthyRow]

/-- Counterfactual impact column of the jump predictor. -/
theorem sim10_eval : simBase pred10 xs10 e10 w10 = [0, 1] := by
  norm_num [simBase, impactColumn, pred10, xs10, failedRow]

/-- Deltas of the jump-predictor run. -/
theorem deltas10_eval : reportDeltas pred10 x10 xs10 e10 w10 = [0, 1] := by
  rw [reportDeltas, base10_eval, sim10_eval, x10_length]
  norm_num [simDeltas, List.range_succ]

/-- Topology weights of the single-edge two-node graph. -/
theorem tws10_eval : compute_topology_weights e10 w10 2 = [1, 1] := by
  norm_num [compute_topology_weights, e10, w10, attachW, rawTopologyWeight, nodeDegree,
    nodeWeightSum, maxOf, List.range_succ]

/-- The jump-predictor run succeeds with two predictor calls. -/
theorem run10_eval : run_simulationE pred10 x10 e10 w10 [0] none FailureMode.NONE false =
    (Except.ok (buildReport pred10 x10 xs10 e10 w10 [0] none FailureMode.NONE false), 2) := by
  simp [run_simulationE, setFailed_x10_eval]

/-- Amplification of a unit delta at full topology weight. -/
theorem calc_pd_one_one : calculate_pessimistic_delta 1 1 = (1, "critical") := by
  rw [calculate_pessimistic_delta]
  rw [if_pos (by norm_num : (1 : ℝ) > 0)]
  norm_num [Real.sqrt_one]

/-- Node 0's entry of the jump-predictor run is the forced-failure source. -/
theorem entry10_0_source :
    (reportEntry pred10 x10 xs10 e10 w10 [0] none FailureMode.NONE false 0).is_failed_source
      = true := by
  simp [reportEntry, mkNodeEntry]

/-- Node 1's entry of the jump-predictor run is not a source. -/
theorem entry10_1_nonsource :
    (reportEntry pred10 x10 xs10 e10 w10 [0] none FailureMode.NONE false 1).is_failed_source
      = false := by
  simp [reportEntry, mkNodeEntry]

/-- Node 0's delta in the jump-predictor run. -/
theorem entry10_0_delta :
    (reportEntry pred10 x10 xs10 e10 w10 [0] none FailureMode.NONE false 0).delta = 0 := by
  simp only [reportEntry, mkNodeEntry, deltas10_eval]
  norm_num

/-- Node 1's delta in the jump-predictor run. -/
theorem entry10_1_delta :
    (reportEntry pred10 x10 xs10 e10 w10 [0] none FailureMode.NONE false 1).delta = 1 := by
  simp only [reportEntry, mkNodeEntry, deltas10_eval]
  norm_num

/-- Node 1's interpretation in the standard-mode jump-predictor run carries a
`critical` alert level even though pessimistic mode is off. -/
theorem entry10_1_alert :
    (reportEntry pred10 x10 xs10 e10 w10 [0] none FailureMode.NONE false 1).interpretation.alert_level
      = "critical" := by
  simp only [reportEntry, mkNodeEntry, deltas10_eval, x10_length, tws10_eval]
  have h := (interp_nonsource_fields 1 ((reportNames none 2).getD 1 "") FailureMode.NONE 1
    false).2
  norm_num at h ⊢
  rw [h, calc_pd_one_one]

/-- Node 0's interpretation in the jump-predictor run is the sentinel. -/
theorem entry10_0_alert :
    (reportEntry pred10 x10 xs10 e10 w10 [0] none FailureMode.NONE false 0).interpretation.alert_level
      = "critical" := by
  simp only [reportEntry, mkNodeEntry]
  have h := interp_source_fields ((reportDeltas pred10 x10 xs10 e10 w10).getD 0 0)
    ((reportNames none x10.length).getD 0 "") FailureMode.NONE
    ((compute_topology_weights e10 w10 x10.length).getD 0 0) false
  simpa using h.2.2.2.2

/-- The sorted report of the jump-predictor run lists node 1 (larger `|delta|`)
before node 0. -/
theorem nodes10_eval : reportNodes pred10 x10 xs10 e10 w10 [0] none FailureMode.NONE false =
    [reportEntry pred10 x10 xs10 e10 w10 [0] none FailureMode.NONE false 1,
     reportEntry pred10 x10 xs10 e10 w10 [0] none FailureMode.NONE false 0] := by
  have hord : ¬ reportOrder
      (reportEntry pred10 x10 xs10 e10 w10 [0] none FailureMode.NONE false 0)
      (reportEntry pred10 x10 xs10 e10 w10 [0] none FailureMode.NONE false 1) := by
    unfold reportOrder
    rw [entry10_0_delta, entry10_1_delta]
    norm_num
  simp only [reportNodes, x10_length]
  norm_num [List.range_succ, List.insertionSort, List.orderedInsert]
  exact fun h => absurd h hord

/-- Baseline impact column of the summary-statistics predictor. -/
theorem base2_eval : simBase pred2 x10 e10 w10 = [0, 0] := by
  norm_num [simBase, impactColumn, pred2, x10, healthyRow]

/-- Counterfactual impact column of the summary-statistics predictor. -/
theorem sim2_eval : simBase pred2 xs10 e10 w10 = [1/2, 1/200] := by
  norm_num [simBase, impactColumn, pred2, xs10, failedRow]

/-- Deltas of the summary-statistics run: the source gets `1/2`, the other
node a sub-threshold `1/200`. -/
theorem deltas2_eval : reportDeltas pred2 x10 xs10 e10 w10 = [1/2, 1/200] := by
  rw [reportDeltas, base2_eval, sim2_eval, x10_length]
  norm_num [simDeltas, List.range_succ]

/-- The summary-statistics run succeeds with two predictor calls. -/
theorem run2_eval : run_simulationE pred2 x10 e10 w10 [0] none FailureMode.NONE false =
    (Except.ok (buildReport pred2 x10 xs10 e10 w10 [0] none FailureMode.NONE false), 2) := by
  simp [run_simulationE, setFailed_x10_eval]

/-- Node 0's delta in the summary-statistics run. -/
theorem entry2_0_delta :
    (reportEntry pred2 x10 xs10 e10 w10 [0] none FailureMode.NONE false 0).delta = 1/2 := by
  simp only [reportEntry, mkNodeEntry, deltas2_eval]
  norm_num

/-- Node 1's delta in the summary-statistics run. -/
theorem entry2_1_delta :
    (reportEntry pred2 x10 xs10 e10 w10 [0] none FailureMode.NONE false 1).delta = 1/200 := by
  simp only [reportEntry, mkNodeEntry, deltas2_eval]
  norm_num

/-- Node 0's entry of the summary-statistics run is the forced source. -/
theorem entry2_0_source :
    (reportEntry pred2 x10 xs10 e10 w10 [0] none FailureMode.NONE false 0).is_failed_source
      = true := by
  simp [reportEntry, mkNodeEntry]

/-- Node 1's entry of the summary-statistics run is not a source. -/
theorem entry2_1_nonsource :
    (reportEntry pred2 x10 xs10 e10 w10 [0] none FailureMode.NONE false 1).is_failed_source
      = false := by
  simp [reportEntry, mkNodeEntry]

/-- The sorted report of the summary-statistics run keeps node 0 first. -/
theorem nodes2_eval : reportNodes pred2 x10 xs10 e10 w10 [0] none FailureMode.NONE false =
    [reportEntry pred2 x10 xs10 e10 w10 [0] none FailureMode.NONE false 0,
     reportEntry pred2 x10 xs10 e10 w10 [0] none FailureMode.NONE false 1] := by
  have hord : reportOrder
      (reportEntry pred2 x10 xs10 e10 w10 [0] none FailureMode.NONE false 0)
      (reportEntry pred2 x10 xs10 e10 w10 [0] none FailureMode.NONE false 1) := by
    unfold reportOrder
    rw [entry2_0_delta, entry2_1_delta,
      abs_of_nonneg (by norm_num : (0:ℝ) ≤ 1/200), abs_of_nonneg (by norm_num : (0:ℝ) ≤ 1/2)]
    norm_num
  simp only [reportNodes, x10_length]
  norm_num [List.range_succ, List.insertionSort, List.orderedInsert]
  exact fun h => absurd hord h

/-- Every node-perturbation record is built from some neighbor `n`. -/
theorem mem_np_results (pred : Predictor) (x : List (List ℝ)) (e : List (ℕ × ℕ))
    (w : List ℝ) (t : ℕ) (r : PerturbResult)
    (hr : r ∈ node_perturbation_results pred x e w t) :
    ∃ n, r =
      { neighbor_idx := n
        node_type := nodeTypeName (x.getD n [])
        baseline_impact := rowMean ((pred x e w).getD t [])
        perturbed_impact := rowMean ((pred (perturbFail x n) e w).getD t [])
        causal_effect := rowMean ((pred (perturbFail x n) e w).getD t [])
          - rowMean ((pred x e w).getD t []) } := by
  simp only [node_perturbation_results] at hr
  split at hr
  · cases hr
  · rcases List.mem_map.mp ((List.mem_insertionSort perturbOrder).mp hr) with ⟨n, _, rfl⟩
    exact ⟨n, rfl⟩

/-- Every edge-occlusion record is built from some incoming edge index `i`. -/
theorem mem_eo_results (pred : Predictor) (x : List (List ℝ)) (e : List (ℕ × ℕ))
    (w : List ℝ) (t : ℕ) (r : OccludeResult)
    (hr : r ∈ edge_occlusion_results pred x e w t) :
    ∃ i, r =
      { edge_idx := i
        source_idx := (e.getD i (0, 0)).1
        source_type := nodeTypeName (x.getD (e.getD i (0, 0)).1 [])
        edge_weight := w.getD i 0
        baseline_impact := rowMean ((pred x e w).getD t [])
        occluded_impact := rowMean ((pred x (e.eraseIdx i) (w.eraseIdx i)).getD t [])
        causal_effect := rowMean ((pred x (e.eraseIdx i) (w.eraseIdx i)).getD t [])
          - rowMean ((pred x e w).getD t []) } := by
  simp only [edge_occlusion_results] at hr
  split at hr
  · cases hr
  · rcases List.mem_map.mp ((List.mem_insertionSort occludeOrder).mp hr) with ⟨i, _, rfl⟩
    exact ⟨i, rfl⟩

/-- The single node-perturbation record of the constant-predictor scenario
records the row mean `1/2` as its baseline target impact. -/
theorem np4_head :
    ((node_perturbation_results pred4 x4 e4 w4 1).head?.map fun r => r.baseline_impact)
      = some (1/2) := by
  have hn : ((e4.filter fun e => decide (e.2 = 1)).map fun e => e.1).dedup = ([0] : List ℕ) := by
    decide
  simp only [node_perturbation_results, hn]
  norm_num [List.insertionSort, List.orderedInsert, rowMean, pred4]

/-- C5: for every graph (nonempty node set, nonnegative weights, one weight per
edge, endpoints in range) the Topology Weight Calculator returns per node the
raw value `degree * average incident edge weight` (zero-degree average taken
as `0`) divided by the maximum raw value; when that maximum is `0` every node
gets exactly `0.5`; and every returned weight lies in `[0, 1]` (no division by
zero is performed, so no NaN can arise). -/
theorem C5_topology_weights (es : List (ℕ × ℕ)) (ws : List ℝ) (N : ℕ)
    (hN : 0 < N) (hw : ∀ w ∈ ws, 0 ≤ w) (hlen : ws.length = es.length)
    (hin : ∀ ed ∈ es, ed.1 < N ∧ ed.2 < N) :
    compute_topology_weights es ws N = specTopologyWeights es ws N ∧
      (0 < maxOf ((List.range N).map (specRawValue es ws)) →
        ∀ i < N, (compute_topology_weights es ws N).getD i 0 =
          specRawValue es ws i / maxOf ((List.range N).map (specRawValue es ws))) ∧
      (maxOf ((List.range N).map (specRawValue es ws)) = 0 →
        compute_topology_weights es ws N = List.replicate N 0.5) ∧
      (∀ v ∈ compute_topology_weights es ws N, 0 ≤ v ∧ v ≤ 1) := by
  have heq := compute_topology_weights_eq_spec es ws N hlen
  refine ⟨heq, ?_, ?_, compute_topology_weights_mem_Icc es ws N hw⟩
  · intro hpos i hi
    rw [heq]
    simp only [specTopologyWeights, if_pos hpos, List.map_map]
    exact getD_map_range _ N i hi 0
  · intro hz
    rw [heq]
    simp only [specTopologyWeights, hz, lt_irrefl, if_false, List.map_map]
    refine List.eq_replicate_iff.mpr ⟨by simp, ?_⟩
    intro b hb
    rcases List.mem_map.mp hb with ⟨i, _, rfl⟩
    rfl

/-- C6: for positive delta the pessimistic amplification returns
`min(sqrt(delta) * 2 * tw, 1)` and its alert level is `critical`, `high`,
`elevated` or `normal` exactly on the bands `[0.8, _)`, `[0.5, 0.8)`,
`[0.2, 0.5)` and `(_, 0.2)` of the amplified value; for `delta ≤ 0` it returns
`delta * 0.1` with alert level `normal`. -/
theorem C6_pessimistic_amplification (d tw : ℝ) (h0 : 0 ≤ tw) (h1 : tw ≤ 1) :
    (0 < d →
      (calculate_pessimistic_delta d tw).1 = min (Real.sqrt d * 2 * tw) 1 ∧
      ((calculate_pessimistic_delta d tw).2 = "critical" ↔
        0.8 ≤ (calculate_pessimistic_delta d tw).1) ∧
      ((calculate_pessimistic_delta d tw).2 = "high" ↔
        0.5 ≤ (calculate_pessimistic_delta d tw).1 ∧
          (calculate_pessimistic_delta d tw).1 < 0.8) ∧
      ((calculate_pessimistic_delta d tw).2 = "elevated" ↔
        0.2 ≤ (calculate_pessimistic_delta d tw).1 ∧
          (calculate_pessimistic_delta d tw).1 < 0.5) ∧
      ((calculate_pessimistic_delta d tw).2 = "normal" ↔
        (calculate_pessimistic_delta d tw).1 < 0.2)) ∧
    (d ≤ 0 → calculate_pessimistic_delta d tw = (d * 0.1, "normal")) := by
  constructor
  · intro hd
    have hpos : d > 0 := hd
    simp only [calculate_pessimistic_delta, if_pos hpos]
    set p := Real.sqrt d * 2 * tw with hp
    have hcap : ∀ c : ℝ, c ≤ 1 → (c ≤ min p 1 ↔ c ≤ p) := by
      intro c hc
      constructor
      · intro h
        exact le_trans h (min_le_left p 1)
      · intro h
        exact le_min h hc
    have hcapl : ∀ c : ℝ, c ≤ 1 → (min p 1 < c ↔ p < c) := by
      intro c hc
      rw [← not_le, ← not_le, hcap c hc]
    refine ⟨trivial, ?_, ?_, ?_, ?_⟩
    · rw [hcap 0.8 (by norm_num)]
      split_ifs with c1 c2 c3
      · exact iff_of_true rfl c1
      · exact iff_of_false (by decide) c1
      · exact iff_of_false (by decide) c1
      · exact iff_of_false (by decide) c1
    · rw [hcap 0.5 (by norm_num), hcapl 0.8 (by norm_num)]
      split_ifs with c1 c2 c3
      · exact iff_of_false (by decide) fun h => absurd c1 (not_le.mpr h.2)
      · exact iff_of_true rfl ⟨c2, not_le.mp c1⟩
      · exact iff_of_false (by decide) fun h => c2 h.1
      · exact iff_of_false (by decide) fun h => c2 h.1
    · rw [hcap 0.2 (by norm_num), hcapl 0.5 (by norm_num)]
      split_ifs with c1 c2 c3
      · exact iff_of_false (by decide)
          fun h => absurd h.2 (not_lt.mpr (le_trans (by norm_num) c1))
      · exact iff_of_false (by decide) fun h => absurd h.2 (not_lt.mpr c2)
      · exact iff_of_true rfl ⟨c3, not_le.mp c2⟩
      · exact iff_of_false (by decide) fun h => c3 h.1
    · rw [hcapl 0.2 (by norm_num)]
      split_ifs with c1 c2 c3
      · exact iff_of_false (by decide) (not_lt.mpr (le_trans (by norm_num) c1))
      · exact iff_of_false (by decide) (not_lt.mpr (le_trans (by norm_num) c2))
      · exact iff_of_false (by decide) (not_lt.mpr c3)
      · exact iff_of_true rfl (not_le.mp c3)
  · intro hd
    have hnot : ¬ d > 0 := not_lt.mpr hd
    simp only [calculate_pessimistic_delta, if_neg hnot]

/-- C7: for a fixed topology weight in `[0, 1]`, pessimistic amplification is
non-decreasing in delta on positive deltas, and the amplified output never
exceeds `1` for any delta. -/
theorem C7_amplification_monotone (tw : ℝ) (h0 : 0 ≤ tw) (h1 : tw ≤ 1) :
    (∀ d₁ d₂ : ℝ, 0 < d₁ → d₁ ≤ d₂ →
      (calculate_pessimistic_delta d₁ tw).1 ≤ (calculate_pessimistic_delta d₂ tw).1) ∧
    (∀ d : ℝ, (calculate_pessimistic_delta d tw).1 ≤ 1) := by
  constructor
  · intro d₁ d₂ hd₁ hle
    have hd₂ : 0 < d₂ := lt_of_lt_of_le hd₁ hle
    simp only [calculate_pessimistic_delta, if_pos hd₁, if_pos hd₂]
    refine min_le_min ?_ le_rfl
    have hs := Real.sqrt_le_sqrt hle
    have h2 : Real.sqrt d₁ * 2 ≤ Real.sqrt d₂ * 2 := by linarith
    exact mul_le_mul_of_nonneg_right h2 h0
  · intro d
    by_cases hd : d > 0
    · simp only [calculate_pessimistic_delta, if_pos hd]
      exact min_le_right _ 1
    · simp only [calculate_pessimistic_delta, if_neg hd]
      have hd0 : d ≤ 0 := not_lt.mp hd
      nlinarith

/-- C8: the confidence score is `clamp(min(|delta| * 2, 1) * tw, 0, 1)` and its
label is `low` below `0.2`, `medium` on `[0.2, 0.5)`, and `high` from `0.5`. -/
theorem C8_confidence (d tw : ℝ) (h0 : 0 ≤ tw) (h1 : tw ≤ 1) :
    (compute_confidence d tw).1 = max 0 (min 1 (min (|d| * 2) 1 * tw)) ∧
      ((compute_confidence d tw).2 = "low" ↔ (compute_confidence d tw).1 < 0.2) ∧
      ((compute_confidence d tw).2 = "medium" ↔
        0.2 ≤ (compute_confidence d tw).1 ∧ (compute_confidence d tw).1 < 0.5) ∧
      ((compute_confidence d tw).2 = "high" ↔ 0.5 ≤ (compute_confidence d tw).1) := by
  simp only [compute_confidence]
  set c := max 0 (min 1 (min (|d| * 2) 1 * tw)) with hc
  refine ⟨trivial, ?_, ?_, ?_⟩
  · split_ifs with c1 c2
    · exact iff_of_true rfl c1
    · exact iff_of_false (by decide) c1
    · exact iff_of_false (by decide) c1
  · split_ifs with c1 c2
    · exact iff_of_false (by decide) fun h => absurd c1 (not_lt.mpr h.1)
    · exact iff_of_true rfl ⟨not_lt.mp c1, c2⟩
    · exact iff_of_false (by decide) fun h => c2 h.2
  · split_ifs with c1 c2
    · exact iff_of_false (by decide) fun h => absurd c1 (not_lt.mpr (le_trans (by norm_num) h))
    · exact iff_of_false (by decide) fun h => absurd c2 (not_lt.mpr h)
    · exact iff_of_true rfl (not_lt.mp c2)

/-- C9: for a target with at least one incoming edge, node-perturbation results
are sorted by descending absolute causal effect and edge-occlusion results by
ascending causal effect. -/
theorem C9_ranking (pred : Predictor) (x : List (List ℝ)) (e : List (ℕ × ℕ)) (w : List ℝ)
    (t : ℕ) (h : ∃ ed ∈ e, ed.2 = t) :
    List.Sorted perturbOrder (node_perturbation_results pred x e w t) ∧
      List.Sorted occludeOrder (edge_occlusion_results pred x e w t) := by
  constructor
  · simp only [node_perturbation_results]
    split
    · exact List.sorted_nil
    · exact List.sorted_insertionSort perturbOrder _
  · simp only [edge_occlusion_results]
    split
    · exact List.sorted_nil
    · exact List.sorted_insertionSort occludeOrder _

/-- Witness for C5: the zero-edge two-node graph satisfies the hypotheses and
gets the neutral weight `0.5` on every node. -/
theorem C5_topology_weights_witness :
    (0 : ℕ) < 2 ∧
      compute_topology_weights ([] : List (ℕ × ℕ)) ([] : List ℝ) 2 = List.replicate 2 0.5 := by
  have h := C5_topology_weights [] [] 2 (by norm_num) (by simp) rfl (by simp)
  have hm : maxOf ((List.range 2).map (specRawValue [] [])) = 0 := by
    norm_num [specRawValue, specDegree, specAvgWeight, maxOf, List.range_succ]
  exact ⟨by norm_num, h.2.2.1 hm⟩

/-- Witness for C6: a unit delta at full topology weight amplifies to `1` with
a `critical` alert. -/
theorem C6_pessimistic_amplification_witness :
    (calculate_pessimistic_delta 1 1).1 = 1 ∧ (calculate_pessimistic_delta 1 1).2 = "critical" := by
  have h := (C6_pessimistic_amplification 1 1 (by norm_num) (by norm_num)).1 (by norm_num)
  have hv : (calculate_pessimistic_delta 1 1).1 = 1 := by
    rw [h.1, Real.sqrt_one]
    norm_num
  exact ⟨hv, h.2.1.mpr (by rw [hv]; norm_num)⟩

/-- Witness for C7: monotonicity and the cap at concrete deltas. -/
theorem C7_amplification_monotone_witness :
    (calculate_pessimistic_delta 1 1).1 ≤ (calculate_pessimistic_delta 4 1).1 ∧
      (calculate_pessimistic_delta (-2) 1).1 ≤ 1 := by
  have h := C7_amplification_monotone 1 (by norm_num) (by norm_num)
  exact ⟨h.1 1 4 (by norm_num) (by norm_num), h.2 (-2)⟩

/-- Witness for C8: a unit delta at full topology weight has confidence `1`
and label `high`. -/
theorem C8_confidence_witness :
    (compute_confidence 1 1).1 = 1 ∧ (compute_confidence 1 1).2 = "high" := by
  have h := C8_confidence 1 1 (by norm_num) (by norm_num)
  have hv : (compute_confidence 1 1).1 = 1 := by
    rw [h.1]
    norm_num
  exact ⟨hv, h.2.2.2.mpr (by rw [hv]; norm_num)⟩

/-- Witness for C9: the single-incoming-edge scenario has sorted result lists. -/
theorem C9_ranking_witness :
    (∃ ed ∈ e4, ed.2 = 1) ∧
      List.Sorted perturbOrder (node_perturbation_results pred4 x4 e4 w4 1) ∧
      List.Sorted occludeOrder (edge_occlusion_results pred4 x4 e4 w4 1) := by
  have hh : ∃ ed ∈ e4, ed.2 = 1 := ⟨(0, 1), by simp [e4], rfl⟩
  exact ⟨hh, C9_ranking pred4 x4 e4 w4 1 hh⟩

/-- C1: in every successful simulation run, every report entry flagged as a
forced-failure source carries the fixed sentinel interpretation: risk type
`FAILURE_SOURCE`, risk level `critical`, confidence exactly `1` — regardless of
the node's computed delta. -/
theorem C1_failure_source_sentinel (pred : Predictor) (x : List (List ℝ)) (e : List (ℕ × ℕ))
    (w : List ℝ) (failed : List ℕ) (names : Option (List String)) (fm : FailureMode) (pm : Bool)
    (rep : SimReport) (n : ℕ)
    (hrun : run_simulationE pred x e w failed names fm pm = (Except.ok rep, n)) :
    ∀ r ∈ rep.nodes, r.is_failed_source = true →
      r.interpretation.risk_type = "FAILURE_SOURCE" ∧
        r.interpretation.risk_level = "critical" ∧
        r.interpretation.confidence = 1 := by
  cases hsf : setFailed x failed with
  | none => simp [run_simulationE, hsf] at hrun
  | some xs =>
      simp only [run_simulationE, hsf] at hrun
      have h1 := congrArg Prod.fst hrun
      simp only at h1
      injection h1 with h2
      subst h2
      intro r hr hsrc
      simp only [buildReport] at hr
      rcases (mem_reportNodes_iff pred x xs e w failed names fm pm r).mp hr with ⟨i, hi, rfl⟩
      have hsrc' : decide (i ∈ failed) = true := hsrc
      have hint : (reportEntry pred x xs e w failed names fm pm i).interpretation
          = interpret_delta ((reportDeltas pred x xs e w).getD i 0)
              ((reportNames names x.length).getD i "") true fm
              ((compute_topology_weights e w x.length).getD i 0) pm := by
        simp only [reportEntry, mkNodeEntry, hsrc']
      rw [hint]
      have h := interp_source_fields ((reportDeltas pred x xs e w).getD i 0)
        ((reportNames names x.length).getD i "") fm
        ((compute_topology_weights e w x.length).getD i 0) pm
      exact ⟨h.1, h.2.1, h.2.2.1⟩

/-- Witness for C1: in the jump-predictor run, node 0's entry is a source and
carries the sentinel. -/
theorem C1_failure_source_sentinel_witness :
    run_simulationE pred10 x10 e10 w10 [0] none FailureMode.NONE false =
      (Except.ok (buildReport pred10 x10 xs10 e10 w10 [0] none FailureMode.NONE false), 2) ∧
    reportEntry pred10 x10 xs10 e10 w10 [0] none FailureMode.NONE false 0 ∈
      (buildReport pred10 x10 xs10 e10 w10 [0] none FailureMode.NONE false).nodes ∧
    (reportEntry pred10 x10 xs10 e10 w10 [0] none FailureMode.NONE false 0).is_failed_source
      = true ∧
    ((reportEntry pred10 x10 xs10 e10 w10 [0] none FailureMode.NONE false
        0).interpretation.risk_type = "FAILURE_SOURCE" ∧
      (reportEntry pred10 x10 xs10 e10 w10 [0] none FailureMode.NONE false
        0).interpretation.risk_level = "critical" ∧
      (reportEntry pred10 x10 xs10 e10 w10 [0] none FailureMode.NONE false
        0).interpretation.confidence = 1) := by
  have hmem : reportEntry pred10 x10 xs10 e10 w10 [0] none FailureMode.NONE false 0 ∈
      (buildReport pred10 x10 xs10 e10 w10 [0] none FailureMode.NONE false).nodes := by
    show _ ∈ reportNodes pred10 x10 xs10 e10 w10 [0] none FailureMode.NONE false
    exact (mem_reportNodes_iff pred10 x10 xs10 e10 w10 [0] none FailureMode.NONE false _).mpr
      ⟨0, by rw [x10_length]; norm_num, rfl⟩
  exact ⟨run10_eval, hmem, entry10_0_source,
    C1_failure_source_sentinel pred10 x10 e10 w10 [0] none FailureMode.NONE false _ 2
      run10_eval _ hmem entry10_0_source⟩

/-- Counterexample for C2: in the summary-statistics run the only node with
`|delta| > 0.01` is the forced-failure source itself, yet `affected_count` is
`1` while the count of affected non-source nodes is `0` — so the forced-failure
nodes are not excluded from the summary statistics. -/
theorem C2_summary_counterexample :
    ((run_simulationE pred2 x10 e10 w10 [0] none FailureMode.NONE false).1.map
        fun rep => rep.summary.affected_count) = Except.ok 1 ∧
      ((run_simulationE pred2 x10 e10 w10 [0] none FailureMode.NONE false).1.map
        fun rep => (rep.nodes.filter fun r =>
          !r.is_failed_source && decide (|r.delta| > 0.01)).length) = Except.ok 0 ∧
      ((run_simulationE pred2 x10 e10 w10 [0] none FailureMode.NONE false).1.map
        fun rep => rep.summary.max_delta) = Except.ok (1/2) ∧
      (1 : ℕ) ≠ 0 := by
  rw [run2_eval]
  refine ⟨?_, ?_, ?_, by norm_num⟩
  · simp only [Except.map, buildReport, nodes2_eval, List.filter_cons, List.filter_nil,
      entry2_0_delta, entry2_1_delta]
    rw [abs_of_nonneg (show (0:ℝ) ≤ 1/2 by norm_num),
      abs_of_nonneg (show (0:ℝ) ≤ 1/200 by norm_num)]
    norm_num
  · simp only [Except.map, buildReport, nodes2_eval, List.filter_cons, List.filter_nil,
      entry2_0_delta, entry2_1_delta, entry2_0_source, entry2_1_nonsource]
    rw [abs_of_nonneg (show (0:ℝ) ≤ 1/200 by norm_num)]
    norm_num
  · simp only [Except.map, buildReport, deltas2_eval]
    have : maxOf ([(1:ℝ)/2, 1/200].map abs) = 1/2 := by
      simp only [List.map_cons, List.map_nil, maxOf,
        abs_of_nonneg (by norm_num : (0:ℝ) ≤ 1/2), abs_of_nonneg (by norm_num : (0:ℝ) ≤ 1/200)]
      norm_num [List.foldl]
    rw [this]

/-- C2 as amended: `affected_count` counts all nodes (forced-failure sources
included) whose `|delta| > 0.01`, and `max_delta` is the maximum `|delta|` over
all nodes, sources included. -/
theorem C2_summary_statistics (pred : Predictor) (x : List (List ℝ)) (e : List (ℕ × ℕ))
    (w : List ℝ) (failed : List ℕ) (names : Option (List String)) (fm : FailureMode)
    (pm : Bool) :
    ((run_simulationE pred x e w failed names fm pm).1.map
        fun rep => rep.summary.affected_count)
      = ((run_simulationE pred x e w failed names fm pm).1.map fun rep =>
          (rep.raw.deltas.filter fun dd => decide (|dd| > 0.01)).length) ∧
    ((run_simulationE pred x e w failed names fm pm).1.map fun rep => rep.summary.max_delta)
      = ((run_simulationE pred x e w failed names fm pm).1.map fun rep =>
          maxOf (rep.raw.deltas.map abs)) := by
  cases hsf : setFailed x failed with
  | none => simp [run_simulationE, hsf, Except.map]
  | some xs =>
      simp only [run_simulationE, hsf, Except.map]
      constructor
      · refine congrArg Except.ok ?_
        simp only [buildReport, reportNodes, reportDeltas, simDeltas]
        exact sorted_filter_delta_length x.length
          (reportEntry pred x xs e w failed names fm pm)
          (fun i => (simBase pred xs e w).getD i 0 - (simBase pred x e w).getD i 0)
          (fun i hi => reportEntry_delta_eq pred x xs e w failed names fm pm i hi)
          (fun dd => decide (|dd| > 0.01))
      · rfl

/-- Counterexample for C3: with a forced-failure index `5` in a 2-node graph,
the run does not fail before any predictor call — the baseline predictor call
has already been made (invocation count `1`, not `0`) when the out-of-range
write aborts the run with an index error. -/
theorem C3_out_of_range_counterexample :
    run_simulationE pred10 x10 e10 w10 [5] none FailureMode.NONE false =
      (Except.error SimErr.indexOutOfRange, 1) ∧ (1 : ℕ) ≠ 0 := by
  have hsf : setFailed x10 [5] = none :=
    setFailed_eq_none [5] x10 ⟨5, by simp, by rw [x10_length]; norm_num⟩
  exact ⟨by simp [run_simulationE, hsf], by norm_num⟩

/-- C3 as amended: an out-of-range (`≥ N`) forced-failure index aborts the run
with an index error raised while building the counterfactual features — after
the baseline predictor call, so exactly one predictor invocation occurs. -/
theorem C3_out_of_range (pred : Predictor) (x : List (List ℝ)) (e : List (ℕ × ℕ))
    (w : List ℝ) (failed : List ℕ) (names : Option (List String)) (fm : FailureMode)
    (pm : Bool) (h : ∃ i ∈ failed, x.length ≤ i) :
    run_simulationE pred x e w failed names fm pm =
      (Except.error SimErr.indexOutOfRange, 1) := by
  simp [run_simulationE, setFailed_eq_none failed x h]

/-- Witness for C3: index 5 is out of range for the 2-node graph and the run
aborts after the baseline call. -/
theorem C3_out_of_range_witness :
    (∃ i ∈ [5], x10.length ≤ i) ∧
      run_simulationE pred10 x10 e10 w10 [5] none FailureMode.NONE false =
        (Except.error SimErr.indexOutOfRange, 1) := by
  have hh : ∃ i ∈ [5], x10.length ≤ i := ⟨5, by simp, by rw [x10_length]; norm_num⟩
  exact ⟨hh, C3_out_of_range pred10 x10 e10 w10 [5] none FailureMode.NONE false hh⟩

/-- Counterexample for C4: with a predictor returning `[0, 1]` for the target
row, node-perturbation analysis records baseline target impact `1/2` (the row
mean), while dimension 0 of the target's output vector is `0`. -/
theorem C4_dimension_counterexample :
    ((node_perturbation_results pred4 x4 e4 w4 1).head?.map fun r => r.baseline_impact)
        = some (1/2) ∧
      ((pred4 x4 e4 w4).getD 1 []).getD 0 0 = 0 ∧ ((1 : ℝ)/2) ≠ 0 := by
  refine ⟨np4_head, by norm_num [pred4], by norm_num⟩

/-- C4 as amended: `runSimulation` extracts dimension 0 of the predictor output
for its baseline and counterfactual impacts, but the three causal-attribution
analyses use the mean over all output dimensions of the target's row for their
baseline, perturbed, occluded, current and repaired impacts. -/
theorem C4_impact_extraction (pred : Predictor) (x : List (List ℝ)) (e : List (ℕ × ℕ))
    (w : List ℝ) (failed : List ℕ) (names : Option (List String)) (fm : FailureMode)
    (pm : Bool) (t f : ℕ) :
    ((run_simulationE pred x e w failed names fm pm).1.map fun rep => rep.raw.baseline)
        = ((run_simulationE pred x e w failed names fm pm).1.map
            fun _ => impactColumn (pred x e w)) ∧
    ((run_simulationE pred x e w failed names fm pm).1.map fun rep => rep.raw.simulated)
        = (match setFailed x failed with
           | none => Except.error SimErr.indexOutOfRange
           | some xs => Except.ok (impactColumn (pred xs e w))) ∧
    ((node_perturbation_results pred x e w t).map fun r => r.baseline_impact)
        = ((node_perturbation_results pred x e w t).map
            fun _ => rowMean ((pred x e w).getD t [])) ∧
    ((node_perturbation_results pred x e w t).map fun r => r.perturbed_impact)
        = ((node_perturbation_results pred x e w t).map
            fun r => rowMean ((pred (perturbFail x r.neighbor_idx) e w).getD t [])) ∧
    ((edge_occlusion_results pred x e w t).map fun r => r.baseline_impact)
        = ((edge_occlusion_results pred x e w t).map
            fun _ => rowMean ((pred x e w).getD t [])) ∧
    ((edge_occlusion_results pred x e w t).map fun r => r.occluded_impact)
        = ((edge_occlusion_results pred x e w t).map
            fun r => rowMean ((pred x (e.eraseIdx r.edge_idx) (w.eraseIdx r.edge_idx)).getD t [])) ∧
    (counterfactual_analysis pred x e w t f).current_impact
        = rowMean ((pred x e w).getD t []) ∧
    (counterfactual_analysis pred x e w t f).repaired_impact
        = rowMean ((pred (repairNode x f) e w).getD t []) := by
  refine ⟨?_, ?_, ?_, ?_, ?_, ?_, rfl, rfl⟩
  · cases hsf : setFailed x failed <;>
      simp [run_simulationE, hsf, Except.map, buildReport, simBase]
  · cases hsf : setFailed x failed <;>
      simp [run_simulationE, hsf, Except.map, buildReport, simBase]
  · refine List.map_congr_left ?_
    intro r hr
    rcases mem_np_results pred x e w t r hr with ⟨n, rfl⟩
    rfl
  · refine List.map_congr_left ?_
    intro r hr
    rcases mem_np_results pred x e w t r hr with ⟨n, rfl⟩
    rfl
  · refine List.map_congr_left ?_
    intro r hr
    rcases mem_eo_results pred x e w t r hr with ⟨i, rfl⟩
    rfl
  · refine List.map_congr_left ?_
    intro r hr
    rcases mem_eo_results pred x e w t r hr with ⟨i, rfl⟩
    rfl

/-- C10: in every successful standard-mode run (`pessimistic_mode = false`),
each entry's top-level `pessimistic_delta` field is `None`, yet each non-source
entry's interpretation still carries the unconditionally computed pessimistic
delta and alert level — and concretely, the standard-mode jump-predictor run
produces a non-source entry whose alert level is `critical`. -/
theorem C10_standard_mode_alerts :
    (∀ (pred : Predictor) (x : List (List ℝ)) (e : List (ℕ × ℕ)) (w : List ℝ)
      (failed : List ℕ) (names : Option (List String)) (fm : FailureMode)
      (rep : SimReport) (n : ℕ),
      run_simulationE pred x e w failed names fm false = (Except.ok rep, n) →
      ∀ r ∈ rep.nodes,
        r.pessimistic_delta = none ∧
        (r.is_failed_source = false →
          r.interpretation.pessimistic_delta =
            (calculate_pessimistic_delta r.delta
              ((compute_topology_weights e w x.length).getD r.node_id 0)).1 ∧
          r.interpretation.alert_level =
            (calculate_pessimistic_delta r.delta
              ((compute_topology_weights e w x.length).getD r.node_id 0)).2)) ∧
    ((run_simulationE pred10 x10 e10 w10 [0] none FailureMode.NONE false).1.map
        fun rep => rep.nodes.map fun r => (r.is_failed_source, r.interpretation.alert_level))
      = Except.ok [(false, "critical"), (true, "critical")] := by
  constructor
  · intro pred x e w failed names fm rep n hrun r hr
    cases hsf : setFailed x failed with
    | none => simp [run_simulationE, hsf] at hrun
    | some xs =>
        simp only [run_simulationE, hsf] at hrun
        have h1 := congrArg Prod.fst hrun
        simp only at h1
        injection h1 with h2
        subst h2
        simp only [buildReport] at hr
        rcases (mem_reportNodes_iff pred x xs e w failed names fm false r).mp hr
          with ⟨i, hi, rfl⟩
        constructor
        · rfl
        · intro hns
          have hns' : decide (i ∈ failed) = false := hns
          have hint : (reportEntry pred x xs e w failed names fm false i).interpretation
              = interpret_delta ((reportDeltas pred x xs e w).getD i 0)
                  ((reportNames names x.length).getD i "") false fm
                  ((compute_topology_weights e w x.length).getD i 0) false := by
            simp only [reportEntry, mkNodeEntry, hns']
          have hdelta : (reportEntry pred x xs e w failed names fm false i).delta
              = (reportDeltas pred x xs e w).getD i 0 := rfl
          have hid : (reportEntry pred x xs e w failed names fm false i).node_id = i := rfl
          rw [hint, hdelta, hid]
          exact interp_nonsource_fields ((reportDeltas pred x xs e w).getD i 0)
            ((reportNames names x.length).getD i "") fm
            ((compute_topology_weights e w x.length).getD i 0) false
  · rw [run10_eval]
    simp only [Except.map, buildReport, nodes10_eval, List.map_cons, List.map_nil]
    rw [entry10_1_nonsource, entry10_1_alert, entry10_0_source, entry10_0_alert]

/-- Witness for C10: node 1's entry of the standard-mode jump-predictor run has
a `None` top-level pessimistic delta while its interpretation still carries the
amplification outputs. -/
theorem C10_standard_mode_alerts_witness :
    run_simulationE pred10 x10 e10 w10 [0] none FailureMode.NONE false =
      (Except.ok (buildReport pred10 x10 xs10 e10 w10 [0] none FailureMode.NONE false), 2) ∧
    reportEntry pred10 x10 xs10 e10 w10 [0] none FailureMode.NONE false 1 ∈
      (buildReport pred10 x10 xs10 e10 w10 [0] none FailureMode.NONE false).nodes ∧
    (reportEntry pred10 x10 xs10 e10 w10 [0] none FailureMode.NONE false 1).pessimistic_delta
      = none ∧
    ((reportEntry pred10 x10 xs10 e10 w10 [0] none FailureMode.NONE false 1).is_failed_source
        = false →
      (reportEntry pred10 x10 xs10 e10 w10 [0] none FailureMode.NONE
          false 1).interpretation.pessimistic_delta =
        (calculate_pessimistic_delta
          (reportEntry pred10 x10 xs10 e10 w10 [0] none FailureMode.NONE false 1).delta
          ((compute_topology_weights e10 w10 x10.length).getD
            (reportEntry pred10 x10 xs10 e10 w10 [0] none FailureMode.NONE false 1).node_id
            0)).1 ∧
      (reportEntry pred10 x10 xs10 e10 w10 [0] none FailureMode.NONE
          false 1).interpretation.alert_level =
        (calculate_pessimistic_delta
          (reportEntry pred10 x10 xs10 e10 w10 [0] none FailureMode.NONE false 1).delta
          ((compute_topology_weights e10 w10 x10.length).getD
            (reportEntry pred10 x10 xs10 e10 w10 [0] none FailureMode.NONE false 1).node_id
            0)).2) := by
  have hmem : reportEntry pred10 x10 xs10 e10 w10 [0] none FailureMode.NONE false 1 ∈
      (buildReport pred10 x10 xs10 e10 w10 [0] none FailureMode.NONE false).nodes := by
    show _ ∈ reportNodes pred10 x10 xs10 e10 w10 [0] none FailureMode.NONE false
    exact (mem_reportNodes_iff pred10 x10 xs10 e10 w10 [0] none FailureMode.NONE false _).mpr
      ⟨1, by rw [x10_length]; norm_num, rfl⟩
  have h := C10_standard_mode_alerts.1 pred10 x10 e10 w10 [0] none FailureMode.NONE _ 2
    run10_eval _ hmem
  exact ⟨run10_eval, hmem, h.1, h.2⟩
